import Mathlib

/-!
Shallow embedding of the route-and-behavior verification harness of
The-Universal-Bitcoin-Identity-Layer.

Source files embedded here:
  tests/test_static_analysis.py  -- the static rule catalog and its runner
  tests/test_critical_fixes.py   -- the dynamic (route-table) rule
  wsgi.py                        -- the deployment shim

Modelling conventions:
  - Source text is a `List Char` (Python `str`).
  - A rule's observable behaviour is the pair of its boolean return value
    (the verdict recorded by `main`) and the list of categorized output
    lines it prints (`ok`/`fail`/`warn`/`info`, mirroring the `ok`, `fail`,
    `warn`, `info` print helpers; the blue test banner printed by `test()`
    is presentation-only and omitted).
  - Python exceptions are `Except String` values; `read_file` on a missing
    or unreadable file is an `Except.error`, mirroring `open()` raising.
  - `re.findall` with a fixed-width pattern is modelled by a left-to-right
    non-overlapping scan (`countM`); `re.search` with `re.DOTALL` and
    non-greedy quantifiers is modelled by the leftmost-match procedure,
    taking at each step the first position at which the next piece of the
    pattern matches (for these patterns, backtracking to a later position
    can never succeed once the first choice has failed, because each later
    choice only shrinks the set of positions available to the rest of the
    pattern, so the lazy leftmost procedure is exactly `re.search`).
-/

/-- Categorized output line, mirroring the `ok`/`fail`/`warn`/`info`
print helpers of `test_static_analysis.py` (and the `print_pass` /
`print_fail` / `print_warn` / `print_info` helpers of
`test_critical_fixes.py`). -/
inductive Line where
  | ok : String → Line
  | fail : String → Line
  | warn : String → Line
  | info : String → Line
deriving DecidableEq, Repr

/-- Python substring test `needle in hay` on text. -/
def containsSub (needle : List Char) : List Char → Bool
  | [] => needle.isEmpty
  | c :: rest => needle.isPrefixOf (c :: rest) || containsSub needle rest

/-- Substring test on `String`s via their character data. -/
def strContains (needle hay : String) : Bool :=
  containsSub needle.data hay.data

/-- Python `str.split(chr(10))`: split text into lines at newline characters
(a trailing newline yields a final empty line, as in Python). -/
def splitNL : List Char → List (List Char)
  | [] => [[]]
  | c :: rest =>
    match splitNL rest with
    | [] => [[]]
    | l :: ls => if c = '\n' then [] :: l :: ls else (c :: l) :: ls

/-- Python `chr(10).join(lines)`. -/
def joinNL : List (List Char) → List Char
  | [] => []
  | [l] => l
  | l :: ls => l ++ '\n' :: joinNL ls

/-- Python `enumerate(xs, i)`. -/
def enumFrom (i : Nat) : List α → List (Nat × α)
  | [] => []
  | x :: xs => (i, x) :: enumFrom (i + 1) xs

/-- Python `str.strip()`: drop leading and trailing whitespace. -/
def pyStrip (l : List Char) : List Char :=
  ((l.dropWhile Char.isWhitespace).reverse.dropWhile Char.isWhitespace).reverse

/-- Generic non-overlapping left-to-right match counter: `M` reports the
length (at least 1) of a match starting at the head of its argument, and
the scan resumes after a match, exactly as `len(re.findall(pat, s))` for a
pattern whose matches cannot be empty.  Fuel-indexed to keep the recursion
structural; `countM` supplies fuel `s.length`, enough for every step since
each step consumes at least one character. -/
def countMAux (M : List Char → Option Nat) : Nat → List Char → Nat
  | 0, _ => 0
  | _, [] => 0
  | fuel + 1, c :: rest =>
    match M (c :: rest) with
    | some n => 1 + countMAux M fuel (List.drop (n - 1) rest)
    | none => countMAux M fuel rest

/-- Number of non-overlapping matches of `M` in `s`, leftmost first. -/
def countM (M : List Char → Option Nat) (s : List Char) : Nat :=
  countMAux M s.length s

/-- Matcher for a fixed literal pattern (a regex with no metacharacters). -/
def litMatch (pat : List Char) (s : List Char) : Option Nat :=
  if pat ≠ [] ∧ pat.isPrefixOf s then some pat.length else none

/-- The file-system visible to the harness: the content of the single
target file `app/app.py`, or `none` when it is missing or unreadable. -/
def read_file (fs : Option (List Char)) : Except String (List Char) :=
  match fs with
  | some s => Except.ok s
  | none => Except.error "FileNotFoundError"

/-- Verdict recorded by `main` for one rule: the returned boolean, with an
uncaught exception converted to `False` by the `except` clause of the
rule-execution loop. -/
def verdictOf : Except String Bool → Bool
  | Except.ok b => b
  | Except.error _ => false

/-- Python dict assignment `d[k] = v` on an insertion-ordered association
list: replace in place if the key exists, else append. -/
def dictAssign : List (String × Bool) → String → Bool → List (String × Bool)
  | [], k, v => [(k, v)]
  | (k0, v0) :: rest, k, v =>
    if k0 = k then (k, v) :: rest else (k0, v0) :: dictAssign rest k v

/-- The rule-execution loop of `main`: `results = ⟨empty dict⟩` then
`results[name] = t()` for each test, with exceptions caught at this
boundary and recorded as `False`. -/
def runTests (tests : List (String × Except String Bool)) : List (String × Bool) :=
  tests.foldl (fun acc p => dictAssign acc p.1 (verdictOf p.2)) []

/-- Summary count `passed = sum(1 for r in results.values() if r)`. -/
def passedOf (rs : List (String × Bool)) : Nat :=
  rs.countP (fun p => p.2)

/-- Summary count `total = len(results)`. -/
def totalOf (rs : List (String × Bool)) : Nat :=
  rs.length

/-- Summary count `failed = total - passed` (test_static_analysis.py). -/
def failedOf (rs : List (String × Bool)) : Nat :=
  totalOf rs - passedOf rs

/-- Return value of `main`, passed to `sys.exit`: `0` if `failed == 0`
else `1`. -/
def exitOf (rs : List (String × Bool)) : Nat :=
  if failedOf rs = 0 then 0 else 1

/-- The module body of `wsgi.py` when loaded with the given `__name__`:
the namespace bindings it creates (`from app.app import app` binds `app`;
the final `application = app` binds `application`), and whether the
`if __name__ == "__main__"` guard fired (invoking `app.run()`). -/
def wsgiModule (moduleName : String) (appObj : α) : List (String × α) × Bool :=
  ([("app", appObj), ("application", appObj)], moduleName == "__main__")

/-- The regex character class of a quote: `'` or `"`. -/
def isQuote (c : Char) : Bool :=
  c = '\x27' || c = '"'

/-- Python regex `\w`: a word character (letter, digit or underscore). -/
def charIsWord (c : Char) : Bool :=
  c.isAlphanum || c = '_'

/-- The pattern `pat` matches at position `i` of `s`. -/
def matchesAt (pat s : List Char) (i : Nat) : Bool :=
  pat.isPrefixOf (s.drop i)

/-- Matcher at the head of the text for the regex
`@app\.route\([quote]\/verify_signature[quote]` of
`test_issue1_no_duplicate_routes` (note: no closing parenthesis in this
pattern); a match always has length 30. -/
def verifRouteMatch (s : List Char) : Option Nat :=
  if ("@app.route(").data.isPrefixOf s then
    match s.drop 11 with
    | q1 :: rest1 =>
      if isQuote q1 && ("/verify_signature").data.isPrefixOf rest1 then
        match rest1.drop 17 with
        | q2 :: _ => if isQuote q2 then some 30 else none
        | [] => none
      else none
    | [] => none
  else none

/-- The regex `pre[quote]path[quote]\)` matches at position `i` of `s`,
where `pre` and `path` are literal segments. -/
def quotedHdrAt (pre path : List Char) (s : List Char) (i : Nat) : Bool :=
  let t := s.drop i
  if pre.isPrefixOf t then
    match t.drop pre.length with
    | q1 :: rest1 =>
      if isQuote q1 && path.isPrefixOf rest1 then
        match rest1.drop path.length with
        | q2 :: rest2 =>
          if isQuote q2 then
            match rest2 with
            | ')' :: _ => true
            | _ => false
          else false
        | [] => false
      else false
    | [] => false
  else false

/-- Start marker of the scoped region for `test_issue1_finish_login_used`:
the regex `@app\.route\([quote]\/verify_signature[quote]\)` (31 characters
when it matches). -/
def verifHdrAt (s : List Char) (i : Nat) : Bool :=
  quotedHdrAt ("@app.route(").data ("/verify_signature").data s i

/-- Start marker of `test_issue3_add_chat_message_used`: the regex
`@socketio\.on\([quote]message[quote]\)` (23 characters). -/
def sockHdrAt (s : List Char) (i : Nat) : Bool :=
  quotedHdrAt ("@socketio.on(").data ("message").data s i

/-- Start marker of `test_issue3_get_chat_history_used`: the regex
`@app\.route\([quote]\/chat[quote]\)` (19 characters). -/
def chatHdrAt (s : List Char) (i : Nat) : Bool :=
  quotedHdrAt ("@app.route(").data ("/chat").data s i

/-- The literal `def verify_signature():` that follows the non-greedy gap
in the regex of `test_issue1_finish_login_used` (23 characters). -/
def defSigLit : List Char :=
  ("def verify_signature():").data

/-- Continuation of the regex piece `\w+\(` after its first word
character: keep consuming word characters; the first non-word character
must be an opening parenthesis. -/
def wordTailParen : List Char → Bool
  | [] => false
  | c :: rest => if charIsWord c then wordTailParen rest else c = '('

/-- Lookahead alternative `\ndef \w+\(`: a top-level function definition
at column zero. -/
def defParenAt (s : List Char) (m : Nat) : Bool :=
  matchesAt ("\ndef ").data s m
    && (match s.drop (m + 5) with
        | c :: rest => charIsWord c && wordTailParen rest
        | [] => false)

/-- Lookahead alternative `\nclass \w+`: a top-level class definition at
column zero. -/
def classWordAt (s : List Char) (m : Nat) : Bool :=
  matchesAt ("\nclass ").data s m
    && (match s.drop (m + 7) with
        | c :: _ => charIsWord c
        | [] => false)

/-- Lookahead alternative `\n@app\.route`: a route decorator at column
zero. -/
def routeDecAt (s : List Char) (m : Nat) : Bool :=
  matchesAt ("\n@app.route").data s m

/-- Lookahead alternative `\n@socketio\.on`. -/
def sockDecAt (s : List Char) (m : Nat) : Bool :=
  matchesAt ("\n@socketio.on").data s m

/-- Lookahead `(?=\n@app\.route|\ndef \w+\(|\nclass \w+)` of
`test_issue1_finish_login_used`: the next top-level declaration. -/
def lookVerifyAt (s : List Char) (m : Nat) : Bool :=
  routeDecAt s m || defParenAt s m || classWordAt s m

/-- Lookahead `(?=\n@socketio\.on|\n@app\.route|\ndef \w+\()` of
`test_issue3_add_chat_message_used`. -/
def lookSockAt (s : List Char) (m : Nat) : Bool :=
  sockDecAt s m || routeDecAt s m || defParenAt s m

/-- Lookahead `(?=\n@app\.route|\ndef \w+\()` of
`test_issue3_get_chat_history_used`. -/
def lookChatAt (s : List Char) (m : Nat) : Bool :=
  routeDecAt s m || defParenAt s m

/-- First position `j ≥ i` with `p j`, examining at most `fuel` positions
(the leftmost-match scan of `re.search`). -/
def findIdx (p : Nat → Bool) : Nat → Nat → Option Nat
  | _, 0 => none
  | i, fuel + 1 => if p i then some i else findIdx p (i + 1) fuel

/-- The slice `s[a:b]` of the text. -/
def seg (s : List Char) (a b : Nat) : List Char :=
  (s.drop a).take (b - a)

/-- The captured group of
`re.search(r'@app\.route\([quote]\/verify_signature[quote]\).*?def verify_signature\(\):(.*?)(?=\n@app\.route|\ndef \w+\(|\nclass \w+)', source, re.DOTALL)`:
leftmost header, then the earliest following `def verify_signature():`,
then the capture runs to the earliest following lookahead position.  The
lookahead is mandatory: with no following top-level declaration the regex
has no match and the result is `none`. -/
def searchVerifyBody (s : List Char) : Option (List Char) :=
  match findIdx (fun i => verifHdrAt s i) 0 (s.length + 1) with
  | none => none
  | some i =>
    match findIdx (fun k => matchesAt defSigLit s k) (i + 31) (s.length + 1) with
    | none => none
    | some k =>
      match findIdx (fun m => lookVerifyAt s m) (k + 23) (s.length + 1) with
      | none => none
      | some m => some (seg s (k + 23) m)

/-- The captured group of
`re.search(r"@socketio\.on\([quote]message[quote]\)(.*?)(?=\n@socketio\.on|\n@app\.route|\ndef \w+\()", source, re.DOTALL)`. -/
def searchSockBody (s : List Char) : Option (List Char) :=
  match findIdx (fun i => sockHdrAt s i) 0 (s.length + 1) with
  | none => none
  | some i =>
    match findIdx (fun m => lookSockAt s m) (i + 23) (s.length + 1) with
    | none => none
    | some m => some (seg s (i + 23) m)

/-- The captured group of
`re.search(r"@app\.route\([quote]\/chat[quote]\)(.*?)(?=\n@app\.route|\ndef \w+\()", source, re.DOTALL)`. -/
def searchChatBody (s : List Char) : Option (List Char) :=
  match findIdx (fun i => chatHdrAt s i) 0 (s.length + 1) with
  | none => none
  | some i =>
    match findIdx (fun m => lookChatAt s m) (i + 19) (s.length + 1) with
    | none => none
    | some m => some (seg s (i + 19) m)

/-- Rule: only ONE /verify_signature route declaration exists in the
source text (occurrence-count rule of test_static_analysis.py). -/
def test_issue1_no_duplicate_routes (source : List Char) : Bool × List Line :=
  let n := countM verifRouteMatch source
  if n = 0 then
    (false, [Line.fail "No /verify_signature route found!"])
  else if n = 1 then
    (true, [Line.ok "Only ONE /verify_signature route found (correct)"])
  else
    (false, [Line.fail ("Found " ++ toString n ++ " duplicate /verify_signature routes!")])

/-- Rule: the verify_signature_legacy function has been deleted. -/
def test_issue1_no_legacy_function (source : List Char) : Bool × List Line :=
  if containsSub ("def verify_signature_legacy(").data source then
    (false, [Line.fail "verify_signature_legacy function still exists (should be deleted)"])
  else
    (true, [Line.ok "verify_signature_legacy function deleted (correct)"])

/-- Rule: _finish_login is called inside the verify_signature function
(scoped-presence rule). -/
def test_issue1_finish_login_used (source : List Char) : Bool × List Line :=
  match searchVerifyBody source with
  | none => (false, [Line.fail "Could not find verify_signature function"])
  | some body =>
    if containsSub ("_finish_login").data body then
      (true, [Line.ok "verify_signature calls _finish_login (correct)"])
    else
      (true, [Line.warn "verify_signature may not call _finish_login"])

/-- Rule: no get_storage() calls remain (absence rule); on failure the
evidence lines show the matching lines whose 1-based line number is
below 10. -/
def test_issue2_no_get_storage_calls (source : List Char) : Bool × List Line :=
  let n := countM (litMatch ("get_storage()").data) source
  if n = 0 then
    (true, [Line.ok "No get_storage() calls found (correct - using db_storage)"])
  else
    (false,
      Line.fail ("Found " ++ toString n ++ " get_storage() calls (should use db_storage)")
        :: ((enumFrom 1 (splitNL source)).filter
              (fun p => containsSub ("get_storage()").data p.2 && p.1 < 10)).map
             (fun p => Line.info ("  Line " ++ toString p.1 ++ ": " ++ String.mk (pyStrip p.2))))

/-- Rule: store_oauth_client is used. -/
def test_issue2_uses_store_oauth_client (source : List Char) : Bool × List Line :=
  if containsSub ("store_oauth_client(").data source then
    (true, [Line.ok "store_oauth_client() is used (PostgreSQL storage)"])
  else
    (false, [Line.fail "store_oauth_client() not found (should use db_storage)"])

/-- Rule: get_oauth_client is used. -/
def test_issue2_uses_get_oauth_client (source : List Char) : Bool × List Line :=
  if containsSub ("get_oauth_client(").data source then
    (true, [Line.ok "get_oauth_client() is used (PostgreSQL storage)"])
  else
    (false, [Line.fail "get_oauth_client() not found (should use db_storage)"])

/-- One iteration of the checks loop of
`test_issue2_uses_oauth_code_functions`. -/
def checkUse (source : List Char) (fn okMsg : String) : Bool × Line :=
  if containsSub (fn ++ "(").data source then (true, Line.ok okMsg)
  else (false, Line.fail (fn ++ "() not found"))

/-- Rule: the OAuth code functions from db_storage are all used. -/
def test_issue2_uses_oauth_code_functions (source : List Char) : Bool × List Line :=
  let c1 := checkUse source "store_oauth_code" "store_oauth_code() is used"
  let c2 := checkUse source "get_oauth_code" "get_oauth_code() is used"
  let c3 := checkUse source "delete_oauth_code" "delete_oauth_code() is used"
  (c1.1 && c2.1 && c3.1, [c1.2, c2.2, c3.2])

/-- Rule: the in-memory stores are marked DEPRECATED.  Both checks only
warn; the rule returns True unconditionally (warnings, not failures). -/
def test_issue2_deprecated_stores_marked (source : List Char) : Bool × List Line :=
  let l1 :=
    if containsSub ("CLIENT_STORE: Dict").data source
        && containsSub ("DEPRECATED").data source then
      Line.ok "CLIENT_STORE marked as DEPRECATED"
    else
      Line.warn "CLIENT_STORE may not be clearly marked as DEPRECATED"
  let l2 :=
    if containsSub ("AUTH_CODE_STORE: Dict").data source
        && containsSub ("DEPRECATED").data source then
      Line.ok "AUTH_CODE_STORE marked as DEPRECATED"
    else
      Line.warn "AUTH_CODE_STORE may not be clearly marked as DEPRECATED"
  (true, [l1, l2])

/-- One iteration of the funcs loop of `test_issue3_redis_functions_exist`
(for a function name `fn` the loop looks for `def fn(` and renders the
name as `fn()` in the message). -/
def checkDef (source : List Char) (fn : String) : Bool × Line :=
  if containsSub ("def " ++ fn ++ "(").data source then
    (true, Line.ok (fn ++ "() exists"))
  else
    (false, Line.fail (fn ++ "() not found"))

/-- Rule: the Redis chat history functions exist. -/
def test_issue3_redis_functions_exist (source : List Char) : Bool × List Line :=
  let c1 := checkDef source "get_chat_history"
  let c2 := checkDef source "add_chat_message"
  let c3 := checkDef source "purge_old_chat_messages"
  (c1.1 && c2.1 && c3.1, [c1.2, c2.2, c3.2])

/-- Rule: get_redis is imported from app.database. -/
def test_issue3_get_redis_import (source : List Char) : Bool × List Line :=
  if containsSub ("from app.database import").data source
      && containsSub ("get_redis").data source then
    (true, [Line.ok "get_redis imported from app.database"])
  else
    (false, [Line.fail "get_redis not imported from app.database"])

/-- One iteration of the ops loop of `test_issue3_redis_operations_used`:
a missing operation only warns. -/
def checkOp (source : List Char) (op opName : String) : Line :=
  if containsSub ("redis_client." ++ op).data source then
    Line.ok ("Uses Redis " ++ opName ++ " operation")
  else
    Line.warn ("May not use Redis " ++ opName ++ " operation")

/-- Rule: Redis operations are used; warnings only, the rule always
returns True (`all_ok` is set to True in both branches). -/
def test_issue3_redis_operations_used (source : List Char) : Bool × List Line :=
  (true, [checkOp source "lpush" "LPUSH",
          checkOp source "lrange" "LRANGE",
          checkOp source "ltrim" "LTRIM"])

/-- Rule: the WebSocket message handler calls add_chat_message()
(scoped-presence rule over the socketio handler region). -/
def test_issue3_add_chat_message_used (source : List Char) : Bool × List Line :=
  match searchSockBody source with
  | none => (true, [Line.warn "Could not find @socketio.on(\x27message\x27) handler"])
  | some body =>
    if containsSub ("add_chat_message(").data body then
      (true, [Line.ok "Message handler uses add_chat_message() (correct)"])
    else
      (false, [Line.fail "Message handler does NOT use add_chat_message()"])

/-- Rule: the /chat route uses get_chat_history() (scoped-presence rule
over the /chat route region). -/
def test_issue3_get_chat_history_used (source : List Char) : Bool × List Line :=
  match searchChatBody source with
  | none => (true, [Line.warn "Could not find /chat route"])
  | some body =>
    if containsSub ("get_chat_history()").data body
        || containsSub ("history=get_chat_history()").data body then
      (true, [Line.ok "/chat route uses get_chat_history() (correct)"])
    else
      (false, [Line.fail "/chat route does NOT use get_chat_history()"])

/-- Python `lines[max(0, i-5):i]` where `prev` holds the first `i` lines:
the up-to-five lines immediately preceding line `i`. -/
def lastFive (prev : List (List Char)) : List (List Char) :=
  prev.drop (prev.length - 5)

/-- The scanning loop of `test_issue3_chat_history_deprecated`: walk the
lines; at every line containing `CHAT_HISTORY: List`, succeed when the
joined previous five lines contain `DEPRECATED`; otherwise keep
scanning. -/
def scanCHD (prev rest : List (List Char)) : Bool :=
  match rest with
  | [] => false
  | l :: rs =>
    (containsSub ("CHAT_HISTORY: List").data l
        && containsSub ("DEPRECATED").data (joinNL (lastFive prev)))
      || scanCHD (prev ++ [l]) rs

/-- Rule: CHAT_HISTORY is marked DEPRECATED within the five lines above
its declaration (proximity rule). -/
def test_issue3_chat_history_deprecated (source : List Char) : Bool × List Line :=
  if scanCHD [] (splitNL source) then
    (true, [Line.ok "CHAT_HISTORY marked as DEPRECATED (correct)"])
  else
    (false, [Line.fail "CHAT_HISTORY not clearly marked as DEPRECATED"])

/-- The ordered rule catalog of test_static_analysis.py with each rule's
full observable output (verdict and printed lines) on a given source
text. -/
def staticRunFull (source : List Char) : List (String × (Bool × List Line)) :=
  [("test_issue1_no_duplicate_routes", test_issue1_no_duplicate_routes source),
   ("test_issue1_no_legacy_function", test_issue1_no_legacy_function source),
   ("test_issue1_finish_login_used", test_issue1_finish_login_used source),
   ("test_issue2_no_get_storage_calls", test_issue2_no_get_storage_calls source),
   ("test_issue2_uses_store_oauth_client", test_issue2_uses_store_oauth_client source),
   ("test_issue2_uses_get_oauth_client", test_issue2_uses_get_oauth_client source),
   ("test_issue2_uses_oauth_code_functions", test_issue2_uses_oauth_code_functions source),
   ("test_issue2_deprecated_stores_marked", test_issue2_deprecated_stores_marked source),
   ("test_issue3_redis_functions_exist", test_issue3_redis_functions_exist source),
   ("test_issue3_get_redis_import", test_issue3_get_redis_import source),
   ("test_issue3_redis_operations_used", test_issue3_redis_operations_used source),
   ("test_issue3_add_chat_message_used", test_issue3_add_chat_message_used source),
   ("test_issue3_get_chat_history_used", test_issue3_get_chat_history_used source),
   ("test_issue3_chat_history_deprecated", test_issue3_chat_history_deprecated source)]

/-- One catalog entry as `main` sees it: the rule reads the target file
(raising when it is missing or unreadable) and returns its boolean
verdict. -/
def ruleExc (f : List Char → Bool × List Line) (fs : Option (List Char)) :
    Except String Bool :=
  (read_file fs).map (fun s => (f s).1)

/-- The ordered `tests` list of `main` in test_static_analysis.py, as
name/outcome pairs over the given file system. -/
def staticCatalog (fs : Option (List Char)) : List (String × Except String Bool) :=
  [("test_issue1_no_duplicate_routes", ruleExc test_issue1_no_duplicate_routes fs),
   ("test_issue1_no_legacy_function", ruleExc test_issue1_no_legacy_function fs),
   ("test_issue1_finish_login_used", ruleExc test_issue1_finish_login_used fs),
   ("test_issue2_no_get_storage_calls", ruleExc test_issue2_no_get_storage_calls fs),
   ("test_issue2_uses_store_oauth_client", ruleExc test_issue2_uses_store_oauth_client fs),
   ("test_issue2_uses_get_oauth_client", ruleExc test_issue2_uses_get_oauth_client fs),
   ("test_issue2_uses_oauth_code_functions", ruleExc test_issue2_uses_oauth_code_functions fs),
   ("test_issue2_deprecated_stores_marked", ruleExc test_issue2_deprecated_stores_marked fs),
   ("test_issue3_redis_functions_exist", ruleExc test_issue3_redis_functions_exist fs),
   ("test_issue3_get_redis_import", ruleExc test_issue3_get_redis_import fs),
   ("test_issue3_redis_operations_used", ruleExc test_issue3_redis_operations_used fs),
   ("test_issue3_add_chat_message_used", ruleExc test_issue3_add_chat_message_used fs),
   ("test_issue3_get_chat_history_used", ruleExc test_issue3_get_chat_history_used fs),
   ("test_issue3_chat_history_deprecated", ruleExc test_issue3_chat_history_deprecated fs)]

/-- A registered url-map rule of the live application as the dynamic
checker of test_critical_fixes.py sees it: endpoint name, the set of
accepted HTTP methods (as a list), and the path template `str(rule)`. -/
structure RouteRule where
  endpoint : String
  methods : List String
  path : String
deriving DecidableEq, Repr

/-- One element of the `routes` list built by
`test_no_duplicate_verify_signature`: endpoint, the comma-joined sorted
methods (HEAD and OPTIONS removed), and the path. -/
structure RouteEntry where
  endpoint : String
  methodsStr : String
  path : String
deriving DecidableEq, Repr

/-- Insert into a sorted list of strings (one step of Python `sorted`). -/
def insertStr (x : String) : List String → List String
  | [] => [x]
  | y :: ys => if x < y then x :: y :: ys else y :: insertStr x ys

/-- Python `sorted` on a list of strings (insertion sort; any sort agrees
with it on the inputs of interest, which are duplicate-free method
sets). -/
def sortStrs : List String → List String
  | [] => []
  | x :: xs => insertStr x (sortStrs xs)

/-- Python `",".join(xs)`. -/
def joinComma : List String → String
  | [] => ""
  | [x] => x
  | x :: xs => x ++ "," ++ joinComma xs

/-- Python `','.join(sorted(rule.methods - set(["HEAD", "OPTIONS"])))`. -/
def methodsJoin (ms : List String) : String :=
  joinComma (sortStrs (ms.filter (fun m => m != "HEAD" && m != "OPTIONS")))

/-- The dict appended to `routes` for one url-map rule. -/
def toEntry (r : RouteRule) : RouteEntry :=
  ⟨r.endpoint, methodsJoin r.methods, r.path⟩

/-- The `routes` list: every url-map rule except the framework-internal
`static` endpoint. -/
def collectRoutes (rules : List RouteRule) : List RouteEntry :=
  (rules.filter (fun r => r.endpoint != "static")).map toEntry

/-- Python `repr` of the route dict, as interpolated into the pass
message `f"Only ONE /verify_signature route exists: ..."`. -/
def entryRepr (e : RouteEntry) : String :=
  "\x7b\x27endpoint\x27: \x27" ++ e.endpoint ++ "\x27, \x27methods\x27: \x27"
    ++ e.methodsStr ++ "\x27, \x27path\x27: \x27" ++ e.path ++ "\x27\x7d"

/-- Body of `test_no_duplicate_verify_signature` once the filtered
`verify_routes` list has been computed: zero routes is a missing-route
failure, one route passes and is then checked for the POST method (a
substring test on the joined methods string), two or more routes is a
duplicate-registration failure listing every duplicate. -/
def tndGo (verifyRoutes : List RouteEntry) : Bool × List Line :=
  match verifyRoutes with
  | [] => (false, [Line.fail "No /verify_signature route found!"])
  | [e] =>
    if strContains "POST" e.methodsStr then
      (true, [Line.ok ("Only ONE /verify_signature route exists: " ++ entryRepr e),
              Line.ok "Route accepts POST method"])
    else
      (false, [Line.ok ("Only ONE /verify_signature route exists: " ++ entryRepr e),
               Line.fail ("Route does not accept POST: " ++ e.methodsStr)])
  | e1 :: e2 :: es =>
    (false,
      Line.fail ("Found " ++ toString (e1 :: e2 :: es : List RouteEntry).length
          ++ " duplicate /verify_signature routes:")
        :: (e1 :: e2 :: es).map
             (fun e => Line.info ("  - " ++ e.endpoint ++ " " ++ e.methodsStr ++ " " ++ e.path)))

/-- Dynamic route-table rule of test_critical_fixes.py: exactly one
non-static registration of `/verify_signature`, accepting POST. -/
def test_no_duplicate_verify_signature (rules : List RouteRule) : Bool × List Line :=
  tndGo ((collectRoutes rules).filter (fun e => e.path == "/verify_signature"))

/-- A target text whose only route declaration appears once. -/
def sOneRoute : List Char :=
  ("@app.route(\x27/verify_signature\x27)").data

/-- A target text with two route declarations, back to back. -/
def cxA : List Char :=
  ("@app.route(\x27/verify_signature\x27)\n@app.route(\x27/verify_signature\x27)\n").data

/-- A target text with two route declarations at different offsets. -/
def cxB : List Char :=
  ("# pad\n@app.route(\x27/verify_signature\x27)\nxx\n@app.route(\x27/verify_signature\x27)\n").data

/-- A target text whose verify_signature function is the last declaration
in the file: no top-level declaration follows it. -/
def tLast : List Char :=
  ("@app.route(\x27/verify_signature\x27)\ndef verify_signature():\n    return _finish_login(addr)\n").data

/-- A target text whose verify_signature function is followed by another
top-level function definition. -/
def tMid : List Char :=
  ("@app.route(\x27/verify_signature\x27)\ndef verify_signature():\n    return _finish_login(addr)\n\ndef other():\n    pass\n").data

/-- A target text whose only get_storage() call is on line 12. -/
def sLine12 : List Char :=
  ("\n\n\n\n\n\n\n\n\n\n\nx = get_storage()\n").data

/-- A target text containing none of the markers the rules look for. -/
def sWarn : List Char :=
  ("nothing here").data

/-- A live route table with the framework-internal static endpoint plus a
single POST registration of /verify_signature. -/
def demoRoutes : List RouteRule :=
  [⟨"static", ["GET", "HEAD", "OPTIONS"], "/static/<path:filename>"⟩,
   ⟨"verify_signature", ["POST", "OPTIONS", "HEAD"], "/verify_signature"⟩]

/-- Helper: the complement count of the pass predicate. -/
theorem countP_not_eq (rs : List (String × Bool)) :
    rs.countP (fun p => !p.2) = rs.length - rs.countP (fun p => p.2) := by
  induction rs with
  | nil => rfl
  | cons r rest ih =>
    have hle := List.countP_le_length (fun p : String × Bool => p.2) (l := rest)
    rcases r with ⟨n, b⟩
    cases b
    · simp [List.countP_cons, ih, List.length_cons]
      omega
    · simp [List.countP_cons, ih, List.length_cons]

/-- Helper: the pass count never exceeds the number of results. -/
theorem passedOf_le (rs : List (String × Bool)) : passedOf rs ≤ totalOf rs := by
  simpa [passedOf, totalOf] using
    List.countP_le_length (fun p : String × Bool => p.2) (l := rs)

/-- Helper: appending one passing result bumps the pass count and leaves
the fail count unchanged. -/
theorem failedOf_append_true (rs : List (String × Bool)) (n : String) :
    passedOf (rs ++ [(n, true)]) = passedOf rs + 1
    ∧ failedOf (rs ++ [(n, true)]) = failedOf rs := by
  have h1 : passedOf (rs ++ [(n, true)]) = passedOf rs + 1 := by
    simp [passedOf, List.countP_append, List.countP_cons]
  refine ⟨h1, ?_⟩
  simp only [failedOf, totalOf, h1, List.length_append, List.length_singleton]
  omega

/-- Helper: assigning a fresh key appends the pair. -/
theorem dictAssign_not_mem (k : String) (v : Bool) :
    ∀ acc : List (String × Bool), k ∉ acc.map Prod.fst →
      dictAssign acc k v = acc ++ [(k, v)] := by
  intro acc
  induction acc with
  | nil => intro _; rfl
  | cons p rest ih =>
    intro h
    rcases p with ⟨k0, v0⟩
    simp only [List.map_cons, List.mem_cons] at h
    push_neg at h
    simp only [dictAssign, if_neg (fun he : k0 = k => h.1 he.symm), List.cons_append]
    rw [ih h.2]

/-- Helper: with pairwise-distinct rule names the execution loop appends
one verdict per rule, in catalog order. -/
theorem foldl_dictAssign (tests : List (String × Except String Bool)) :
    ∀ acc : List (String × Bool),
      (tests.map Prod.fst).Nodup →
      (∀ k, k ∈ acc.map Prod.fst → k ∉ tests.map Prod.fst) →
      tests.foldl (fun acc p => dictAssign acc p.1 (verdictOf p.2)) acc
        = acc ++ tests.map (fun p => (p.1, verdictOf p.2)) := by
  induction tests with
  | nil => intro acc _ _; simp
  | cons t ts ih =>
    intro acc hnd hdis
    rcases t with ⟨n, r⟩
    simp only [List.map_cons, List.nodup_cons] at hnd
    have hn : n ∉ acc.map Prod.fst := fun hmem => hdis n hmem (by simp)
    simp only [List.foldl_cons]
    rw [dictAssign_not_mem n (verdictOf r) acc hn]
    have hside : ∀ k, k ∈ (acc ++ [(n, verdictOf r)]).map Prod.fst →
        k ∉ ts.map Prod.fst := by
      intro k hk
      simp only [List.map_append, List.mem_append] at hk
      rcases hk with hk | hk
      · have := hdis k hk
        simp only [List.map_cons, List.mem_cons] at this
        push_neg at this
        exact this.2
      · simp only [List.map_cons, List.map_nil, List.mem_cons, List.not_mem_nil,
          or_false] at hk
        subst hk
        exact hnd.1
    rw [ih (acc ++ [(n, verdictOf r)]) hnd.2 hside]
    simp

/-- Helper: the empty pattern occurs in every text. -/
theorem containsSub_nil (h : List Char) : containsSub [] h = true := by
  cases h <;> simp [containsSub, List.isPrefixOf]

/-- Helper: every text contains itself. -/
theorem containsSub_self (p : List Char) : containsSub p p = true := by
  cases p with
  | nil => rfl
  | cons c r => simp [containsSub, List.isPrefixOf_iff_prefix]

/-- Helper: substring containment survives prepending text. -/
theorem containsSub_append_right (n t h : List Char)
    (hc : containsSub n h = true) : containsSub n (t ++ h) = true := by
  induction t with
  | nil => simpa
  | cons c t ih => simp [containsSub, ih]

/-- Helper: substring containment survives appending text. -/
theorem containsSub_append_left (n t : List Char) :
    ∀ h : List Char, containsSub n h = true → containsSub n (h ++ t) = true := by
  intro h
  induction h with
  | nil =>
    intro hc
    have hn : n = [] := by
      cases n with
      | nil => rfl
      | cons c r => simp [containsSub] at hc
    subst hn
    simpa using containsSub_nil t
  | cons c h ih =>
    intro hc
    simp only [containsSub, Bool.or_eq_true] at hc
    rcases hc with hpre | hsub
    · have h1 : n <+: (c :: h) := List.isPrefixOf_iff_prefix.mp hpre
      have h2 : n <+: (c :: h) ++ t := h1.trans (List.prefix_append _ _)
      simp only [containsSub, Bool.or_eq_true, List.cons_append] at h2 ⊢
      exact Or.inl (List.isPrefixOf_iff_prefix.mpr (by simpa using h2))
    · simp only [List.cons_append, containsSub, Bool.or_eq_true]
      exact Or.inr (ih hsub)

/-- Helper: insertion preserves membership. -/
theorem mem_insertStr (a x : String) :
    ∀ l : List String, (a = x ∨ a ∈ l) → a ∈ insertStr x l := by
  intro l
  induction l with
  | nil =>
    intro h
    rcases h with h | h
    · simp [insertStr, h]
    · simp at h
  | cons y ys ih =>
    intro h
    simp only [insertStr]
    split
    · rcases h with h | h
      · simp [h]
      · exact List.mem_cons_of_mem x h
    · rcases h with h | h
      · exact List.mem_cons_of_mem y (ih (Or.inl h))
      · rcases List.mem_cons.mp h with h | h
        · simp [h]
        · exact List.mem_cons_of_mem y (ih (Or.inr h))

/-- Helper: sorting preserves membership. -/
theorem mem_sortStrs (a : String) :
    ∀ l : List String, a ∈ l → a ∈ sortStrs l := by
  intro l
  induction l with
  | nil => intro h; simp at h
  | cons x xs ih =>
    intro h
    rcases List.mem_cons.mp h with h | h
    · exact mem_insertStr a x (sortStrs xs) (Or.inl h)
    · exact mem_insertStr a x (sortStrs xs) (Or.inr (ih h))

/-- Helper: every element of a list is a substring of the comma join. -/
theorem strContains_join (m : String) :
    ∀ l : List String, m ∈ l → strContains m (joinComma l) = true := by
  intro l
  induction l with
  | nil => intro h; simp at h
  | cons x xs ih =>
    intro h
    cases xs with
    | nil =>
      have hx : m = x := by simpa using h
      subst hx
      simpa [joinComma, strContains] using containsSub_self m.data
    | cons y ys =>
      rcases List.mem_cons.mp h with h | h
      · subst h
        show strContains m (m ++ "," ++ joinComma (y :: ys)) = true
        unfold strContains
        rw [String.data_append, String.data_append, List.append_assoc]
        exact containsSub_append_left m.data _ m.data (containsSub_self m.data)
      · show strContains m (x ++ "," ++ joinComma (y :: ys)) = true
        unfold strContains
        rw [String.data_append, String.data_append]
        exact containsSub_append_right m.data _ _ (ih h)

/-- Helper: a methods set containing POST joins to a string containing
POST. -/
theorem post_in_methodsJoin (ms : List String) (h : "POST" ∈ ms) :
    strContains "POST" (methodsJoin ms) = true := by
  unfold methodsJoin
  exact strContains_join "POST" _
    (mem_sortStrs "POST" _ (List.mem_filter.mpr ⟨h, by decide⟩))

/-- Helper: what a successful bounded scan guarantees: the hit satisfies
the predicate, lies at or after the start, and is the first such
position. -/
theorem findIdx_some_spec (p : Nat → Bool) :
    ∀ (fuel i j : Nat), findIdx p i fuel = some j →
      p j = true ∧ i ≤ j ∧ ∀ t, i ≤ t → t < j → p t = false := by
  intro fuel
  induction fuel with
  | zero => intro i j h; simp [findIdx] at h
  | succ f ih =>
    intro i j h
    simp only [findIdx] at h
    by_cases hp : p i
    · rw [if_pos hp] at h
      injection h with h
      subst h
      exact ⟨hp, Nat.le_refl _,
        fun t ht1 ht2 => absurd (Nat.lt_of_lt_of_le ht2 ht1) (Nat.lt_irrefl t)⟩
    · rw [if_neg hp] at h
      obtain ⟨hpj, hij, hmin⟩ := ih (i + 1) j h
      refine ⟨hpj, Nat.le_trans (Nat.le_succ i) hij, fun t ht1 ht2 => ?_⟩
      rcases Nat.eq_or_lt_of_le ht1 with he | hlt
      · cases he
        simpa using hp
      · exact hmin t hlt ht2

/-- Helper: a scan for a predicate that fails everywhere at or after the
start position finds nothing. -/
theorem findIdx_none_from (p : Nat → Bool) :
    ∀ (fuel i : Nat), (∀ t, i ≤ t → p t = false) → findIdx p i fuel = none := by
  intro fuel
  induction fuel with
  | zero => intro i _; rfl
  | succ f ih =>
    intro i hp
    simp only [findIdx, hp i (Nat.le_refl i)]
    simpa using ih (i + 1) (fun t ht => hp t (Nat.le_of_succ_le ht))

/-- Helper: past the end of the text no top-level-declaration lookahead
can match. -/
theorem lookVerify_ge_false (s : List Char) (m : Nat) (h : s.length ≤ m) :
    lookVerifyAt s m = false := by
  have hd : s.drop m = [] := List.drop_eq_nil_iff.mpr h
  have hd5 : s.drop (m + 5) = [] :=
    List.drop_eq_nil_iff.mpr (Nat.le_trans h (Nat.le_add_right m 5))
  have hd7 : s.drop (m + 7) = [] :=
    List.drop_eq_nil_iff.mpr (Nat.le_trans h (Nat.le_add_right m 7))
  simp only [lookVerifyAt, routeDecAt, defParenAt, classWordAt, matchesAt, hd, hd5, hd7]
  decide

/-- Helper: the occurrence-count rule never prints a warn line. -/
theorem rule1_no_warn (s : List Char) (w : String) :
    Line.warn w ∉ (test_issue1_no_duplicate_routes s).2 := by
  intro hw
  simp only [test_issue1_no_duplicate_routes] at hw
  split at hw
  · simp at hw
  · split at hw <;> simp at hw

/-- Helper: the legacy-function absence rule never prints a warn line. -/
theorem rule2_no_warn (s : List Char) (w : String) :
    Line.warn w ∉ (test_issue1_no_legacy_function s).2 := by
  intro hw
  simp only [test_issue1_no_legacy_function] at hw
  split at hw <;> simp at hw

/-- Helper: when the finish-login rule warns, its verdict is True. -/
theorem rule3_warn_true (s : List Char) :
    (∃ w, Line.warn w ∈ (test_issue1_finish_login_used s).2) →
    (test_issue1_finish_login_used s).1 = true := by
  intro hw
  rcases hw with ⟨w, hw⟩
  unfold test_issue1_finish_login_used at hw ⊢
  cases hsb : searchVerifyBody s with
  | none => simp only [hsb] at hw; simp at hw
  | some body =>
    simp only [hsb]
    split <;> rfl

/-- Helper: the get_storage absence rule never prints a warn line. -/
theorem rule4_no_warn (s : List Char) (w : String) :
    Line.warn w ∉ (test_issue2_no_get_storage_calls s).2 := by
  intro hw
  simp only [test_issue2_no_get_storage_calls] at hw
  split at hw
  · simp at hw
  · simp only [List.mem_cons, List.mem_map] at hw
    rcases hw with hw | ⟨p, _, hw⟩ <;> simp at hw

/-- Helper: the store_oauth_client rule never prints a warn line. -/
theorem rule5_no_warn (s : List Char) (w : String) :
    Line.warn w ∉ (test_issue2_uses_store_oauth_client s).2 := by
  intro hw
  simp only [test_issue2_uses_store_oauth_client] at hw
  split at hw <;> simp at hw

/-- Helper: the get_oauth_client rule never prints a warn line. -/
theorem rule6_no_warn (s : List Char) (w : String) :
    Line.warn w ∉ (test_issue2_uses_get_oauth_client s).2 := by
  intro hw
  simp only [test_issue2_uses_get_oauth_client] at hw
  split at hw <;> simp at hw

/-- Helper: one checks-loop line is never a warn line. -/
theorem checkUse_no_warn (src : List Char) (fn okMsg w : String) :
    (checkUse src fn okMsg).2 ≠ Line.warn w := by
  unfold checkUse
  split <;> simp

/-- Helper: the oauth-code-functions rule never prints a warn line. -/
theorem rule7_no_warn (s : List Char) (w : String) :
    Line.warn w ∉ (test_issue2_uses_oauth_code_functions s).2 := by
  intro hw
  simp only [test_issue2_uses_oauth_code_functions, List.mem_cons,
    List.not_mem_nil, or_false] at hw
  rcases hw with h | h | h
  · exact checkUse_no_warn s "store_oauth_code" "store_oauth_code() is used" w h.symm
  · exact checkUse_no_warn s "get_oauth_code" "get_oauth_code() is used" w h.symm
  · exact checkUse_no_warn s "delete_oauth_code" "delete_oauth_code() is used" w h.symm

/-- Helper: one funcs-loop line is never a warn line. -/
theorem checkDef_no_warn (src : List Char) (fn w : String) :
    (checkDef src fn).2 ≠ Line.warn w := by
  unfold checkDef
  split <;> simp

/-- Helper: the redis-functions rule never prints a warn line. -/
theorem rule9_no_warn (s : List Char) (w : String) :
    Line.warn w ∉ (test_issue3_redis_functions_exist s).2 := by
  intro hw
  simp only [test_issue3_redis_functions_exist, List.mem_cons,
    List.not_mem_nil, or_false] at hw
  rcases hw with h | h | h
  · exact checkDef_no_warn s "get_chat_history" w h.symm
  · exact checkDef_no_warn s "add_chat_message" w h.symm
  · exact checkDef_no_warn s "purge_old_chat_messages" w h.symm

/-- Helper: the get_redis import rule never prints a warn line. -/
theorem rule10_no_warn (s : List Char) (w : String) :
    Line.warn w ∉ (test_issue3_get_redis_import s).2 := by
  intro hw
  simp only [test_issue3_get_redis_import] at hw
  split at hw <;> simp at hw

/-- Helper: when the add_chat_message rule warns, its verdict is True. -/
theorem rule12_warn_true (s : List Char) :
    (∃ w, Line.warn w ∈ (test_issue3_add_chat_message_used s).2) →
    (test_issue3_add_chat_message_used s).1 = true := by
  intro hw
  rcases hw with ⟨w, hw⟩
  unfold test_issue3_add_chat_message_used at hw ⊢
  cases hsb : searchSockBody s with
  | none => simp only [hsb]
  | some body =>
    simp only [hsb] at hw ⊢
    split at hw <;> simp_all

/-- Helper: when the get_chat_history rule warns, its verdict is True. -/
theorem rule13_warn_true (s : List Char) :
    (∃ w, Line.warn w ∈ (test_issue3_get_chat_history_used s).2) →
    (test_issue3_get_chat_history_used s).1 = true := by
  intro hw
  rcases hw with ⟨w, hw⟩
  unfold test_issue3_get_chat_history_used at hw ⊢
  cases hsb : searchChatBody s with
  | none => simp only [hsb]
  | some body =>
    simp only [hsb] at hw ⊢
    split at hw <;> simp_all

/-- Helper: the chat-history deprecation rule never prints a warn line. -/
theorem rule14_no_warn (s : List Char) (w : String) :
    Line.warn w ∉ (test_issue3_chat_history_deprecated s).2 := by
  intro hw
  simp only [test_issue3_chat_history_deprecated] at hw
  split at hw <;> simp at hw

/-- C9: after the deployment shim module is loaded, its two exported names
`app` and `application` are bound to the same object (the application
imported from app.app), so any consumer looking up either name receives
the identical application object. -/
theorem wsgi_app_application_same {α : Type} (a : α) (n : String) :
    List.lookup "app" (wsgiModule n a).1 = some a
    ∧ List.lookup "application" (wsgiModule n a).1 = some a
    ∧ List.lookup "app" (wsgiModule n a).1
      = List.lookup "application" (wsgiModule n a).1 :=
  ⟨rfl, rfl, rfl⟩

/-- Witness for C9 at a concrete application object and module name. -/
theorem wsgi_app_application_same_w :
    List.lookup "app" (wsgiModule "wsgi" (0 : Nat)).1 = some 0
    ∧ List.lookup "application" (wsgiModule "wsgi" (0 : Nat)).1 = some 0 :=
  ⟨(wsgi_app_application_same 0 "wsgi").1, (wsgi_app_application_same 0 "wsgi").2.1⟩

/-- C2: the process exit code is 0 iff the number of FAIL verdicts is 0
(all rules PASS, where a WARN outcome is recorded as a passing boolean),
and 1 otherwise; the failed count printed in the summary (computed as
`total - passed`) equals exactly the number of rules whose verdict is
FAIL. -/
theorem exit_code_iff_no_failures (rs : List (String × Bool)) :
    (exitOf rs = 0 ↔ failedOf rs = 0)
    ∧ (exitOf rs = 1 ↔ failedOf rs ≠ 0)
    ∧ failedOf rs = rs.countP (fun p => !p.2) := by
  refine ⟨?_, ?_, ?_⟩
  · unfold exitOf; split <;> simp_all
  · unfold exitOf; split <;> simp_all
  · rw [countP_not_eq]; rfl

/-- Witness for C2 at a concrete results list with one FAIL verdict. -/
theorem exit_code_iff_no_failures_w :
    exitOf [("a", true), ("b", false)] = 1
    ∧ failedOf [("a", true), ("b", false)] = 1 :=
  ⟨(exit_code_iff_no_failures [("a", true), ("b", false)]).2.1.mpr (by decide),
   by decide⟩

/-- C1: with pairwise-distinct rule names (as in the catalog), the runner
records one verdict per rule in order — a rule whose evaluation raises is
caught at the rule-execution boundary and recorded as FAIL — and every one
of the remaining rules is still evaluated and reported, so the summary
total equals the full catalog size. -/
theorem isolation_runner_reports_all (tests : List (String × Except String Bool))
    (h : (tests.map Prod.fst).Nodup) :
    runTests tests = tests.map (fun p => (p.1, verdictOf p.2))
    ∧ totalOf (runTests tests) = tests.length
    ∧ ∀ n e, (n, Except.error e) ∈ tests → (n, false) ∈ runTests tests := by
  have hm : runTests tests = tests.map (fun p => (p.1, verdictOf p.2)) := by
    unfold runTests
    simpa using foldl_dictAssign tests [] h (by simp)
  refine ⟨hm, ?_, ?_⟩
  · rw [hm]; simp [totalOf]
  · intro n e hmem
    rw [hm]
    exact List.mem_map.mpr ⟨(n, Except.error e), hmem, rfl⟩

/-- Witness for C1: a three-rule catalog whose middle rule raises still
reports all three verdicts, with FAIL recorded for the raising rule. -/
theorem isolation_runner_reports_all_w :
    ("b", false) ∈ runTests
      [("a", Except.ok true), ("b", Except.error "boom"), ("c", Except.ok true)]
    ∧ totalOf (runTests
      [("a", Except.ok true), ("b", Except.error "boom"), ("c", Except.ok true)]) = 3 := by
  have h := isolation_runner_reports_all
    [("a", Except.ok true), ("b", Except.error "boom"), ("c", Except.ok true)]
    (by simp)
  exact ⟨h.2.2 "b" "boom" (by simp), h.2.1⟩

/-- Counterexample for C4: when the target file is missing the read error
is raised inside each rule and caught at the rule-execution boundary, so
the run does NOT abort: all fourteen rules are still evaluated and
recorded (here the last rule of the catalog has a recorded verdict),
contradicting the claim that no further rules are evaluated. -/
theorem read_error_run_continues_cx :
    read_file none = Except.error "FileNotFoundError"
    ∧ ("test_issue3_chat_history_deprecated", false) ∈ runTests (staticCatalog none)
    ∧ totalOf (runTests (staticCatalog none)) = 14 :=
  ⟨rfl, by decide, by decide⟩

/-- C4 as amended: a missing or unreadable target file is not fatal; the
read failure is caught per rule, every rule of the catalog records a FAIL
verdict, the run continues to completion and exits with code 1. -/
theorem read_error_per_rule_fail :
    runTests (staticCatalog none)
      = [("test_issue1_no_duplicate_routes", false),
         ("test_issue1_no_legacy_function", false),
         ("test_issue1_finish_login_used", false),
         ("test_issue2_no_get_storage_calls", false),
         ("test_issue2_uses_store_oauth_client", false),
         ("test_issue2_uses_get_oauth_client", false),
         ("test_issue2_uses_oauth_code_functions", false),
         ("test_issue2_deprecated_stores_marked", false),
         ("test_issue3_redis_functions_exist", false),
         ("test_issue3_get_redis_import", false),
         ("test_issue3_redis_operations_used", false),
         ("test_issue3_add_chat_message_used", false),
         ("test_issue3_get_chat_history_used", false),
         ("test_issue3_chat_history_deprecated", false)]
    ∧ exitOf (runTests (staticCatalog none)) = 1 :=
  ⟨by decide, by decide⟩

/-- C3 as amended: the occurrence-count rule passes on exactly one match,
fails with the distinct missing message on zero matches, and fails with
the distinct duplicate message on two or more matches — the duplicate
message reports the number of matches (it does not list the match
locations). -/
theorem occurrence_rule_counts (s : List Char) :
    (countM verifRouteMatch s = 0 →
       test_issue1_no_duplicate_routes s
         = (false, [Line.fail "No /verify_signature route found!"]))
    ∧ (countM verifRouteMatch s = 1 →
       test_issue1_no_duplicate_routes s
         = (true, [Line.ok "Only ONE /verify_signature route found (correct)"]))
    ∧ (2 ≤ countM verifRouteMatch s →
       test_issue1_no_duplicate_routes s
         = (false, [Line.fail ("Found " ++ toString (countM verifRouteMatch s)
             ++ " duplicate /verify_signature routes!")]))
    ∧ ("No /verify_signature route found!" : String)
        ≠ "Found " ++ toString (countM verifRouteMatch s)
            ++ " duplicate /verify_signature routes!" := by
  refine ⟨fun h => ?_, fun h => ?_, fun h => ?_, fun heq => ?_⟩
  · simp [test_issue1_no_duplicate_routes, h]
  · simp [test_issue1_no_duplicate_routes, h]
  · have h0 : countM verifRouteMatch s ≠ 0 := by omega
    have h1 : countM verifRouteMatch s ≠ 1 := by omega
    simp [test_issue1_no_duplicate_routes, h0, h1]
  · have hF : ("Found " ++ toString (countM verifRouteMatch s)
        ++ " duplicate /verify_signature routes!").data.head? = some 'F' := rfl
    rw [← heq] at hF
    exact absurd hF (by decide)

/-- Witness for C3 at a text with exactly one route declaration. -/
theorem occurrence_rule_counts_w :
    countM verifRouteMatch sOneRoute = 1
    ∧ test_issue1_no_duplicate_routes sOneRoute
      = (true, [Line.ok "Only ONE /verify_signature route found (correct)"]) :=
  ⟨by decide, (occurrence_rule_counts sOneRoute).2.1 (by decide)⟩

/-- Counterexample for C3: two texts whose two matches sit at different
locations produce byte-identical rule output, and that output is a single
FAIL line reporting only the match count — so the duplicate message does
not list each match location. -/
theorem occurrence_rule_message_cx :
    countM verifRouteMatch cxA = 2
    ∧ countM verifRouteMatch cxB = 2
    ∧ cxA ≠ cxB
    ∧ test_issue1_no_duplicate_routes cxA = test_issue1_no_duplicate_routes cxB
    ∧ (test_issue1_no_duplicate_routes cxA).2
      = [Line.fail "Found 2 duplicate /verify_signature routes!"] :=
  ⟨by decide, by decide, by decide, by decide, by decide⟩

/-- C8 evaluated at the failing input: a text whose only get_storage()
call sits on line 12 makes the rule FAIL, but the evidence filter
`i < 10` on 1-based line numbers suppresses every matching line, so no
preview of the matches is printed at all — contradicting the code's own
comment (and the spec) that the first few occurrences are shown. -/
theorem absence_rule_line_cap_bug :
    countM (litMatch ("get_storage()").data) sLine12 = 1
    ∧ test_issue2_no_get_storage_calls sLine12
      = (false, [Line.fail "Found 1 get_storage() calls (should use db_storage)"]) :=
  ⟨by decide, by decide⟩

/-- C10: the deprecation-marker rule for CLIENT_STORE and AUTH_CODE_STORE
returns True for every possible target text (it only warns), never prints
a FAIL line, and appending its result to any summary leaves the failed
count and the exit code unchanged. -/
theorem deprecated_stores_rule_always_true (s : List Char) :
    (test_issue2_deprecated_stores_marked s).1 = true
    ∧ (∀ w, Line.fail w ∉ (test_issue2_deprecated_stores_marked s).2)
    ∧ (∀ rs : List (String × Bool),
        failedOf (rs ++ [("test_issue2_deprecated_stores_marked",
          (test_issue2_deprecated_stores_marked s).1)]) = failedOf rs
        ∧ exitOf (rs ++ [("test_issue2_deprecated_stores_marked",
          (test_issue2_deprecated_stores_marked s).1)]) = exitOf rs) := by
  have hfst : (test_issue2_deprecated_stores_marked s).1 = true := rfl
  refine ⟨hfst, ?_, ?_⟩
  · intro w hw
    by_cases h1 : containsSub ("CLIENT_STORE: Dict").data s
        && containsSub ("DEPRECATED").data s <;>
    by_cases h2 : containsSub ("AUTH_CODE_STORE: Dict").data s
        && containsSub ("DEPRECATED").data s <;>
    simp [test_issue2_deprecated_stores_marked, h1, h2] at hw
  · intro rs
    rw [hfst]
    have hfe := failedOf_append_true rs "test_issue2_deprecated_stores_marked"
    exact ⟨hfe.2, by simp [exitOf, hfe.2]⟩

/-- Witness for C10 at a concrete target text with no markers. -/
theorem deprecated_stores_rule_always_true_w :
    (test_issue2_deprecated_stores_marked sWarn).1 = true
    ∧ Line.fail "x" ∉ (test_issue2_deprecated_stores_marked sWarn).2 :=
  ⟨(deprecated_stores_rule_always_true sWarn).1,
   (deprecated_stores_rule_always_true sWarn).2.1 "x"⟩

/-- Counterexample for C7: on a text with no deprecation markers the
deprecation-marker rule's outcome is WARN (it prints warn lines), yet its
recorded verdict is True and the summary counts it toward the passed
count (passed = 1, failed = 0 for the singleton run) — so WARN results
are counted toward the passed count, contradicting the claim that they
count toward neither. -/
theorem warn_counted_as_pass_cx :
    (test_issue2_deprecated_stores_marked sWarn).1 = true
    ∧ (∃ w, Line.warn w ∈ (test_issue2_deprecated_stores_marked sWarn).2)
    ∧ passedOf [("test_issue2_deprecated_stores_marked",
        (test_issue2_deprecated_stores_marked sWarn).1)] = 1
    ∧ failedOf [("test_issue2_deprecated_stores_marked",
        (test_issue2_deprecated_stores_marked sWarn).1)] = 0 :=
  ⟨by decide,
   ⟨"CLIENT_STORE may not be clearly marked as DEPRECATED", by decide⟩,
   by decide, by decide⟩

/-- C7 as amended: a rule whose outcome is WARN records verdict True for
every rule of the catalog and every target text, so a WARN outcome never
causes the overall run to fail (all-passing results exit with code 0);
WARN results are counted toward the passed count — not the failed
count — in the summary. -/
theorem warn_rules_pass :
    (∀ (s : List Char) (entry : String × (Bool × List Line)),
        entry ∈ staticRunFull s → (∃ w, Line.warn w ∈ entry.2.2) → entry.2.1 = true)
    ∧ (∀ rs : List (String × Bool), (∀ p ∈ rs, p.2 = true) → exitOf rs = 0)
    ∧ (∀ (rs : List (String × Bool)) (n : String),
        passedOf (rs ++ [(n, true)]) = passedOf rs + 1
        ∧ failedOf (rs ++ [(n, true)]) = failedOf rs) := by
  refine ⟨?_, ?_, ?_⟩
  · intro s entry hmem hw
    simp only [staticRunFull, List.mem_cons, List.not_mem_nil, or_false] at hmem
    rcases hmem with h|h|h|h|h|h|h|h|h|h|h|h|h|h <;> subst h
    · rcases hw with ⟨w, hw⟩; exact absurd hw (rule1_no_warn s w)
    · rcases hw with ⟨w, hw⟩; exact absurd hw (rule2_no_warn s w)
    · exact rule3_warn_true s hw
    · rcases hw with ⟨w, hw⟩; exact absurd hw (rule4_no_warn s w)
    · rcases hw with ⟨w, hw⟩; exact absurd hw (rule5_no_warn s w)
    · rcases hw with ⟨w, hw⟩; exact absurd hw (rule6_no_warn s w)
    · rcases hw with ⟨w, hw⟩; exact absurd hw (rule7_no_warn s w)
    · rfl
    · rcases hw with ⟨w, hw⟩; exact absurd hw (rule9_no_warn s w)
    · rcases hw with ⟨w, hw⟩; exact absurd hw (rule10_no_warn s w)
    · rfl
    · exact rule12_warn_true s hw
    · exact rule13_warn_true s hw
    · rcases hw with ⟨w, hw⟩; exact absurd hw (rule14_no_warn s w)
  · intro rs hall
    have hp : passedOf rs = totalOf rs :=
      List.countP_eq_length.mpr (fun p hp => by rw [hall p hp])
    simp [exitOf, failedOf, hp]
  · intro rs n
    exact failedOf_append_true rs n

/-- Witness for C7: the deprecation-marker rule warns on a markerless
text yet its catalog entry records True, and an all-passing run exits
with code 0. -/
theorem warn_rules_pass_w :
    (test_issue2_deprecated_stores_marked sWarn).1 = true
    ∧ exitOf [("x", true)] = 0 := by
  constructor
  · exact warn_rules_pass.1 sWarn
      ("test_issue2_deprecated_stores_marked", test_issue2_deprecated_stores_marked sWarn)
      (by decide)
      ⟨"CLIENT_STORE may not be clearly marked as DEPRECATED", by decide⟩
  · exact warn_rules_pass.2.1 [("x", true)] (by simp)

/-- C5: the route-table rule passes (with a PASS method sub-verdict) on a
table whose single non-static /verify_signature entry accepts POST; on an
entry restricted to GET only the existence sub-verdict is PASS but the
method sub-verdict is FAIL and the rule fails overall; zero entries and
two-or-more entries each fail with their own distinct messages (the
duplicate case listing every duplicate registration). -/
theorem route_table_rule_cases (rules : List RouteRule) :
    ((collectRoutes rules).filter (fun e => e.path == "/verify_signature") = [] →
       test_no_duplicate_verify_signature rules
         = (false, [Line.fail "No /verify_signature route found!"]))
    ∧ (∀ r : RouteRule,
        (collectRoutes rules).filter (fun e => e.path == "/verify_signature")
            = [toEntry r] →
        "POST" ∈ r.methods →
        test_no_duplicate_verify_signature rules
          = (true,
             [Line.ok ("Only ONE /verify_signature route exists: "
                 ++ entryRepr (toEntry r)),
              Line.ok "Route accepts POST method"]))
    ∧ (∀ r : RouteRule,
        (collectRoutes rules).filter (fun e => e.path == "/verify_signature")
            = [toEntry r] →
        r.methods = ["GET"] →
        (test_no_duplicate_verify_signature rules).1 = false
        ∧ Line.ok ("Only ONE /verify_signature route exists: "
            ++ entryRepr (toEntry r)) ∈ (test_no_duplicate_verify_signature rules).2
        ∧ Line.fail "Route does not accept POST: GET"
            ∈ (test_no_duplicate_verify_signature rules).2)
    ∧ (∀ (e1 e2 : RouteEntry) (es : List RouteEntry),
        (collectRoutes rules).filter (fun e => e.path == "/verify_signature")
            = e1 :: e2 :: es →
        test_no_duplicate_verify_signature rules
          = (false,
              Line.fail ("Found " ++ toString (e1 :: e2 :: es : List RouteEntry).length
                  ++ " duplicate /verify_signature routes:")
                :: (e1 :: e2 :: es).map
                     (fun e => Line.info ("  - " ++ e.endpoint ++ " "
                         ++ e.methodsStr ++ " " ++ e.path))))
    ∧ (∀ k : Nat, ("No /verify_signature route found!" : String)
        ≠ "Found " ++ toString k ++ " duplicate /verify_signature routes:") := by
  refine ⟨fun h => ?_, fun r h hm => ?_, fun r h hm => ?_,
    fun e1 e2 es h => ?_, fun k heq => ?_⟩
  · simp [test_no_duplicate_verify_signature, h, tndGo]
  · have hp : strContains "POST" (toEntry r).methodsStr = true :=
      post_in_methodsJoin r.methods hm
    simp [test_no_duplicate_verify_signature, h, tndGo, hp]
  · have hms : (toEntry r).methodsStr = "GET" := by
      show methodsJoin r.methods = "GET"
      rw [hm]
      decide
    have hp : strContains "POST" (toEntry r).methodsStr = false := by
      rw [hms]
      decide
    have hout : test_no_duplicate_verify_signature rules
        = (false,
           [Line.ok ("Only ONE /verify_signature route exists: "
               ++ entryRepr (toEntry r)),
            Line.fail ("Route does not accept POST: " ++ (toEntry r).methodsStr)]) := by
      simp [test_no_duplicate_verify_signature, h, tndGo, hp]
    rw [hout, hms]
    exact ⟨rfl, by simp, by simp⟩
  · simp [test_no_duplicate_verify_signature, h, tndGo]
  · have hF : (("Found " ++ toString k
        ++ " duplicate /verify_signature routes:") : String).data.head? = some 'F' := rfl
    rw [← heq] at hF
    exact absurd hF (by decide)

/-- Witness for C5: a table with the static endpoint and a single POST
registration of /verify_signature passes with both sub-verdicts. -/
theorem route_table_rule_cases_w :
    test_no_duplicate_verify_signature demoRoutes
      = (true,
         [Line.ok ("Only ONE /verify_signature route exists: "
             ++ entryRepr (toEntry ⟨"verify_signature",
                 ["POST", "OPTIONS", "HEAD"], "/verify_signature"⟩)),
          Line.ok "Route accepts POST method"]) :=
  (route_table_rule_cases demoRoutes).2.1
    ⟨"verify_signature", ["POST", "OPTIONS", "HEAD"], "/verify_signature"⟩
    (by decide) (by decide)

/-- Counterexample for C6: a text in which the /verify_signature route
marker is present (it even matches at position 0) but whose marked
function is the last declaration in the file; the mandatory lookahead of
the regex finds no following top-level declaration, the pattern does not
match, and the rule reports that it could not find the function — so the
region is NOT found when the marked declaration is last, contradicting
the claim. -/
theorem scoped_rule_last_decl_cx :
    verifHdrAt tLast 0 = true
    ∧ containsSub (("@app.route(\x27/verify_signature\x27)").data) tLast = true
    ∧ searchVerifyBody tLast = none
    ∧ test_issue1_finish_login_used tLast
      = (false, [Line.fail "Could not find verify_signature function"]) :=
  ⟨by decide, by decide, by decide, by decide⟩

/-- C6 as amended: whenever the scoped-presence rule finds a region, that
region starts right after the `def verify_signature():` header and runs
exactly to the first following top-level declaration at column zero (no
earlier position matches the lookahead); and when the located function
header is followed by no top-level declaration at all — in particular
when the marked declaration is the last declaration in the file — the
regex has no match and the rule reports that the function could not be
found. -/
theorem scoped_rule_region_bounds (s : List Char) :
    (∀ body, searchVerifyBody s = some body →
       ∃ c m, body = seg s c m ∧ c ≤ m
         ∧ lookVerifyAt s m = true
         ∧ (∀ t, c ≤ t → t < m → lookVerifyAt s t = false)
         ∧ matchesAt defSigLit s (c - 23) = true)
    ∧ (∀ i k, findIdx (fun i => verifHdrAt s i) 0 (s.length + 1) = some i →
       findIdx (fun k => matchesAt defSigLit s k) (i + 31) (s.length + 1) = some k →
       (∀ m, m < s.length → k + 23 ≤ m → lookVerifyAt s m = false) →
       searchVerifyBody s = none
       ∧ test_issue1_finish_login_used s
         = (false, [Line.fail "Could not find verify_signature function"])) := by
  constructor
  · intro body h
    unfold searchVerifyBody at h
    cases h1 : findIdx (fun i => verifHdrAt s i) 0 (s.length + 1) with
    | none => simp only [h1] at h; exact Option.noConfusion h
    | some i =>
      simp only [h1] at h
      cases h2 : findIdx (fun k => matchesAt defSigLit s k) (i + 31) (s.length + 1) with
      | none => simp only [h2] at h; exact Option.noConfusion h
      | some k =>
        simp only [h2] at h
        cases h3 : findIdx (fun m => lookVerifyAt s m) (k + 23) (s.length + 1) with
        | none => simp only [h3] at h; exact Option.noConfusion h
        | some m =>
          simp only [h3, Option.some.injEq] at h
          obtain ⟨hpm, hkm, hmin⟩ := findIdx_some_spec _ _ _ _ h3
          obtain ⟨hpk, _, _⟩ := findIdx_some_spec _ _ _ _ h2
          refine ⟨k + 23, m, h.symm, hkm, by simpa using hpm,
            fun t ht1 ht2 => by simpa using hmin t ht1 ht2, ?_⟩
          have hc : k + 23 - 23 = k := by omega
          rw [hc]
          simpa using hpk
  · intro i k h1 h2 hlook
    have hall : ∀ t, k + 23 ≤ t → lookVerifyAt s t = false := fun t ht =>
      if hlt : t < s.length then hlook t hlt ht
      else lookVerify_ge_false s t (Nat.le_of_not_lt hlt)
    have hnone : searchVerifyBody s = none := by
      unfold searchVerifyBody
      simp only [h1, h2, findIdx_none_from (fun m => lookVerifyAt s m) (s.length + 1)
        (k + 23) hall]
    exact ⟨hnone, by simp [test_issue1_finish_login_used, hnone]⟩

/-- Witness for C6: on a text whose marked function IS followed by a
top-level declaration the rule finds the exact bounded region, and on the
last-declaration text (header at 0, function header located at 32) it
finds none. -/
theorem scoped_rule_region_bounds_w :
    (∃ c m, ("\n    return _finish_login(addr)\n").data = seg tMid c m
       ∧ c ≤ m
       ∧ lookVerifyAt tMid m = true
       ∧ (∀ t, c ≤ t → t < m → lookVerifyAt tMid t = false)
       ∧ matchesAt defSigLit tMid (c - 23) = true)
    ∧ searchVerifyBody tLast = none := by
  constructor
  · exact (scoped_rule_region_bounds tMid).1
      (("\n    return _finish_login(addr)\n").data) (by decide)
  · exact ((scoped_rule_region_bounds tLast).2 0 32 (by decide) (by decide)
      (by decide)).1
